import Mathlib

/-!
Verification of the ShopAssist chain functions (src/app/sql.py, src/app/faq.py).

Python strings are modelled as `List Char`; the hosted language model, the
vector store and the sqlite/pandas executor are external collaborators and
are modelled as oracle functions that may fail (`Except`).  Every invocation
of a collaborator is recorded in an explicit event trace, so that claims of
the form "the model / the relational store is never invoked on this path"
become statements about the trace.
-/

deriving instance DecidableEq for Except

namespace ShopAssist

/-- Model of a Python `str`: a list of characters. -/
abbrev Str := List Char

/-- Python `str.upper()` (ASCII model): uppercase every character. -/
def upper (s : Str) : Str := s.map Char.toUpper

/-- Python whitespace as stripped by `str.strip()` and matched by the regex
class backslash-s (ASCII model): space, tab, newline, carriage return,
vertical tab, form feed. -/
def isPySpace (c : Char) : Bool :=
  c == ' ' || c == '\t' || c == '\n' || c == '\x0d' || c == '\x0b' || c == '\x0c'

/-- Python `str.strip()`: drop leading and trailing whitespace. -/
def strip (s : Str) : Str :=
  ((s.dropWhile isPySpace).reverse.dropWhile isPySpace).reverse

/-- `isPrefixL p s`: `p` is a prefix of `s` (executable). -/
def isPrefixL : Str → Str → Bool
  | [], _ => true
  | _ :: _, [] => false
  | p :: ps, c :: cs => p == c && isPrefixL ps cs

/-- Index of the first occurrence of `pat` as a substring of `s`
(the least `i` with `pat` a prefix of `s.drop i`), if any. -/
def findSub (pat : Str) : Str → Option Nat
  | [] => if isPrefixL pat [] then some 0 else none
  | c :: rest =>
    if isPrefixL pat (c :: rest) then some 0
    else (findSub pat rest).map (· + 1)

/-- Python `pat in s`: substring containment. -/
def containsSub (pat s : Str) : Bool := (findSub pat s).isSome

-- ---------------------------------------------------------------------
-- src/app/sql.py
-- ---------------------------------------------------------------------

/-- The denylist `UNSAFE_SQL_KEYWORDS` of src/app/sql.py. -/
def UNSAFE_SQL_KEYWORDS : List Str :=
  [("DROP").toList, ("DELETE").toList, ("UPDATE").toList,
   ("INSERT").toList, ("ALTER").toList]

/-- `_is_safe_sql` of src/app/sql.py: uppercase the statement and accept
exactly when no denylisted keyword occurs in it as a substring. -/
def _is_safe_sql (sql : Str) : Bool :=
  let sql_upper := upper sql
  ! (UNSAFE_SQL_KEYWORDS.any fun keyword => containsSub keyword sql_upper)

/-- The opening tag of the SQL block, uppercased. -/
def OPEN_TAG : Str := ("<SQL>").toList

/-- The closing tag of the SQL block, uppercased. -/
def CLOSE_TAG : Str := ("</SQL>").toList

/-- `_extract_sql` of src/app/sql.py.  The source applies the regex
`<SQL>` backslash-s-star `(.*?)` backslash-s-star `</SQL>` with the DOTALL
and IGNORECASE flags and returns `match.group(1).strip()`.  Operationally:
the leftmost match starts at the first case-insensitive occurrence of the
opening tag, the lazy group ends at the first case-insensitive occurrence of
the closing tag after it, and the greedy whitespace borders together with the
final `.strip()` amount to stripping the text between the tags.  Tag search
is case-insensitive (modelled by searching the uppercased text); the content
may span newlines (DOTALL). -/
def _extract_sql (text : Str) : Option Str :=
  let u := upper text
  match findSub OPEN_TAG u with
  | none => none
  | some i =>
    match findSub CLOSE_TAG (u.drop (i + 5)) with
    | none => none
    | some k => some (strip ((text.drop (i + 5)).take k))

/-- A role-tagged message sent to the language model. -/
structure Message where
  role : Str
  content : Str
deriving DecidableEq

/-- A Python exception, as far as the pipeline distinguishes them:
`ValueError(msg)` raised by `generate_sql`, and any exception raised inside
an external collaborator (model service, sqlite, pandas, chromadb). -/
inductive PyErr where
  | valueError (msg : Str)
  | libError (msg : Str)
deriving DecidableEq

/-- A row of the `product` table (the seven columns of the schema). -/
structure Row where
  product_link : Str
  title : Str
  brand : Str
  price : Int
  discount : Rat
  avg_rating : Rat
  total_ratings : Int
deriving DecidableEq

/-- One collaborator invocation made by the SQL pipeline. -/
inductive Event where
  | genModelCall
  | execCall (sql : Str)
  | narrModelCall
deriving DecidableEq

/-- The external collaborators of the SQL pipeline.  `genModel` is
`model.run(messages)` in `generate_sql` (returns `response.content`);
`exec` is `pd.read_sql_query(sql, conn)`; `narrModel` is `model.run` in
`narrate_results`, receiving the question and the rows verbatim (the
narration prompt assembly and the record serialization are folded into the
collaborator, since no claim depends on their text). -/
structure Oracles where
  genModel : List Message → Except PyErr Str
  exec : Str → Except PyErr (List Row)
  narrModel : Str → List Row → Except PyErr Str

/-- `SQL_GENERATION_PROMPT` of src/app/sql.py (system prompt of the
generation call), verbatim. -/
def SQL_GENERATION_PROMPT : Str :=
  ("You are an expert SQL assistant.

You are given a SQLite database schema and a natural language question.
Generate ONE valid SQLite SQL query.

<schema>
table: product

columns:
- product_link (TEXT)
- title (TEXT)
- brand (TEXT)
- price (INTEGER)
- discount (REAL)
- avg_rating (REAL)
- total_ratings (INTEGER)
</schema>

RULES:
- Always use SELECT *
- Brand search must be case-insensitive using LOWER(brand) LIKE LOWER('%value%')
- Never use ILIKE
- Use ORDER BY and LIMIT when the question implies ranking or top results
- Never generate destructive SQL (DROP, DELETE, UPDATE, INSERT, ALTER)
- Output ONLY the SQL inside <SQL></SQL> tags
").toList

/-- The messages `generate_sql` sends to the model. -/
def genMessages (question : Str) : List Message :=
  [⟨("system").toList, SQL_GENERATION_PROMPT⟩, ⟨("user").toList, question⟩]

/-- The message of `ValueError("LLM failed to generate SQL.")`. -/
def llmFailedMsg : Str := ("LLM failed to generate SQL.").toList

/-- The message of `ValueError("Unsafe SQL detected.")`. -/
def unsafeMsg : Str := ("Unsafe SQL detected.").toList

/-- `generate_sql` of src/app/sql.py: call the model, extract the SQL block,
raise `ValueError("LLM failed to generate SQL.")` when `not sql` (extraction
returned `None` or the empty string), raise `ValueError("Unsafe SQL
detected.")` when the safety filter rejects, and return the statement
otherwise.  The second component is the trace of collaborator calls. -/
def generate_sql (o : Oracles) (question : Str) :
    Except PyErr Str × List Event :=
  match o.genModel (genMessages question) with
  | .error e => (.error e, [.genModelCall])
  | .ok content =>
    match _extract_sql content with
    | none => (.error (.valueError llmFailedMsg), [.genModelCall])
    | some sql =>
      if sql.isEmpty then (.error (.valueError llmFailedMsg), [.genModelCall])
      else if _is_safe_sql sql then (.ok sql, [.genModelCall])
      else (.error (.valueError unsafeMsg), [.genModelCall])

/-- The state of one sqlite3 connection handle. -/
structure ConnState where
  opened : Bool
  closed : Bool
  committed : Bool
  rolledBack : Bool
deriving DecidableEq

/-- `sqlite3.connect(db_path)`: a freshly opened connection. -/
def sqlite3_connect : ConnState :=
  { opened := true, closed := false, committed := false, rolledBack := false }

/-- The context-manager exit of a `sqlite3.Connection`, as documented by
CPython: on normal exit the transaction is committed, on an exception it is
rolled back; the context manager does not close the connection in either
case. -/
def connExit (c : ConnState) (success : Bool) : ConnState :=
  if success then { c with committed := true }
  else { c with rolledBack := true }

/-- `run_sql` of src/app/sql.py: `with sqlite3.connect(db_path) as conn:
return pd.read_sql_query(sql, conn)`.  Returns the query outcome, the final
state of the connection handle when the `with` block is left, and the trace
(one executor call). -/
def run_sql (o : Oracles) (sql : Str) :
    Except PyErr (List Row) × ConnState × List Event :=
  let conn := sqlite3_connect
  match o.exec sql with
  | .ok rows => (.ok rows, connExit conn true, [.execCall sql])
  | .error e => (.error e, connExit conn false, [.execCall sql])

/-- The fixed sentinel `"No products match your request."`. -/
def noProductsMsg : Str := ("No products match your request.").toList

/-- `narrate_results` of src/app/sql.py: if the result set is empty, return
the fixed sentinel without calling the model (the trace stays empty);
otherwise ask the narration model. -/
def narrate_results (o : Oracles) (question : Str) (df : List Row) :
    Except PyErr Str × List Event :=
  if df.isEmpty then (.ok noProductsMsg, [])
  else
    match o.narrModel question df with
    | .ok content => (.ok content, [.narrModelCall])
    | .error e => (.error e, [.narrModelCall])

/-- The body of the `try:` block of `sql_chain`: generation, execution,
narration, in sequence; the first exception aborts the rest.  The connection
state produced by `run_sql` goes out of scope here, exactly as `conn` does
in the source. -/
def sql_chain_try (o : Oracles) (question : Str) :
    Except PyErr Str × List Event :=
  match generate_sql o question with
  | (.error e, evs) => (.error e, evs)
  | (.ok sql, evs) =>
    match run_sql o sql with
    | (.error e, _conn, evs2) => (.error e, evs ++ evs2)
    | (.ok df, _conn, evs2) =>
      match narrate_results o question df with
      | (r, evs3) => (r, evs ++ evs2 ++ evs3)

/-- The fixed apology `"Sorry, I couldn't process your request at the
moment."` returned by the `except` branch of `sql_chain`. -/
def apologyMsg : Str :=
  ("Sorry, I couldn't process your request at the moment.").toList

/-- `sql_chain` of src/app/sql.py: run the pipeline, and convert any
exception into the fixed apology string.  Its result type is a plain
string: no exception propagates to the caller. -/
def sql_chain (o : Oracles) (question : Str) : Str × List Event :=
  match sql_chain_try o question with
  | (.ok answer, evs) => (answer, evs)
  | (.error _, evs) => (apologyMsg, evs)

/-- The statements the relational store was asked to execute in a trace. -/
def execCalls (evs : List Event) : List Str :=
  evs.filterMap fun e =>
    match e with
    | .execCall s => some s
    | _ => none

-- ---------------------------------------------------------------------
-- src/app/faq.py
-- ---------------------------------------------------------------------

/-- The result object of `collection.query` as `faq_chain` consumes it:
its own Python truthiness, and the value of its `"metadatas"` key (`none`
when the key is absent; each metadata dict is represented by the value of
its `"answer"` key, `none` when that key is absent). -/
structure QRes where
  truthy : Bool
  metadatas : Option (List (List (Option Str)))
deriving DecidableEq

/-- One collaborator invocation made by the FAQ pipeline. -/
inductive FEvent where
  | retrieveCall
  | modelCall
  | ingestCall
deriving DecidableEq

/-- The external collaborators of the FAQ pipeline.  `retrieve` is
`get_relevant_qa` (the chromadb lookup); `chat` is the OpenAI call of
`generate_answer`, receiving the query and the context verbatim (the prompt
assembly is folded into the collaborator, since no claim depends on its
text). -/
structure FaqOracles where
  retrieve : Str → Except PyErr QRes
  chat : Str → Str → Except PyErr Str

/-- Python `" ".join(xs)`. -/
def joinSpace (xs : List Str) : Str := List.intercalate ([' ']) xs

/-- The fixed message of `generate_answer`'s `except` branch. -/
def innerErrorMsg : Str :=
  ("I apologize, but I encountered an error while answering your question. Please try again.").toList

/-- `generate_answer` of src/app/faq.py: build the prompt, call the model,
and catch any model exception internally, converting it to the fixed inner
apology.  The trace records the model call, made on every path. -/
def generate_answer (o : FaqOracles) (query context : Str) :
    Str × List FEvent :=
  match o.chat query context with
  | .ok out => (out, [.modelCall])
  | .error _ => (innerErrorMsg, [.modelCall])

/-- The fixed fallback of `faq_chain` when the retrieval result carries no
records. -/
def noSpecificInfoMsg : Str :=
  ("I don't have specific information about that. Please contact our support team or try rephrasing your question.").toList

/-- The fixed message of `faq_chain`'s outer `except` branch. -/
def troubleMsg : Str :=
  ("I'm having trouble accessing our FAQ information right now. Please try again later.").toList

/-- `faq_chain` of src/app/faq.py: retrieve, test
`result and result.get("metadatas") and result["metadatas"][0]`, join the
answers of the first metadata list into the context, and delegate to
`generate_answer`; when the test fails return the fixed fallback, and when
anything in the `try:` block raises return the outer trouble message. -/
def faq_chain (o : FaqOracles) (query : Str) : Str × List FEvent :=
  match o.retrieve query with
  | .error _ => (troubleMsg, [.retrieveCall])
  | .ok result =>
    match result.truthy, result.metadatas with
    | true, some (m0 :: _) =>
      if m0.isEmpty then (noSpecificInfoMsg, [.retrieveCall])
      else
        let context := joinSpace (m0.map fun meta => meta.getD [])
        let (answer, evs) := generate_answer o query context
        (answer, .retrieveCall :: evs)
    | _, _ => (noSpecificInfoMsg, [.retrieveCall])

/-- A chromadb collection as `ingest_faq_data` builds it. -/
structure Collection where
  name : Str
  documents : List Str
  metadatas : List Str
  ids : List Str
deriving DecidableEq

/-- The vector store: its named collections, in creation order. -/
structure VStore where
  collections : List Collection
deriving DecidableEq

/-- `collection_name_faq = "faqs"`. -/
def collection_name_faq : Str := ("faqs").toList

/-- The id `"faq_" + str(i)` given to the `i`-th ingested record. -/
def faqId (i : Nat) : Str := ("faq_").toList ++ (toString i).toList

/-- `ingest_faq_data` of src/app/faq.py: if a collection named `"faqs"`
already exists, return the store unchanged; otherwise create the collection
and add the CSV's questions as documents, its answers as metadata and the
ordinal ids.  The CSV is modelled as its (question, answer) rows. -/
def ingest_faq_data (s : VStore) (csv : List (Str × Str)) : VStore :=
  if collection_name_faq ∈ s.collections.map Collection.name then s
  else
    { s with
      collections := s.collections ++
        [{ name := collection_name_faq
           documents := csv.map Prod.fst
           metadatas := csv.map Prod.snd
           ids := (List.range csv.length).map faqId }] }

-- ---------------------------------------------------------------------
-- Concrete collaborator fixtures, used by counterexamples and witnesses
-- ---------------------------------------------------------------------

/-- A model that answers every generation call with a DROP statement. -/
def dropOracle : Oracles :=
  ⟨fun _ => Except.ok (("<SQL>DROP TABLE product</SQL>").toList),
   fun _ => Except.ok [], fun _ _ => Except.ok []⟩

/-- A model that answers with a valid SELECT, over a failing executor. -/
def execFailOracle : Oracles :=
  ⟨fun _ => Except.ok (("<SQL>SELECT * FROM product</SQL>").toList),
   fun _ => Except.error (PyErr.libError []), fun _ _ => Except.ok []⟩

/-- A model that answers with an empty SQL block. -/
def emptyTagsOracle : Oracles :=
  ⟨fun _ => Except.ok (("<SQL></SQL>").toList),
   fun _ => Except.ok [], fun _ _ => Except.ok []⟩

/-- A model that answers with a valid SELECT, over a succeeding executor. -/
def selectOracle : Oracles :=
  ⟨fun _ => Except.ok (("<SQL> SELECT 1 </SQL>").toList),
   fun _ => Except.ok [], fun _ _ => Except.ok []⟩

/-- FAQ collaborators whose retrieval yields one record with an empty
answer, over a succeeding model. -/
def faqEmptyAnswerOracle : FaqOracles :=
  ⟨fun _ => Except.ok ⟨true, some [[some ([] : Str)]]⟩,
   fun _ _ => Except.ok (("model narration").toList)⟩

/-- FAQ collaborators whose retrieval yields no records (empty first
metadata list). -/
def faqNoRecordsOracle : FaqOracles :=
  ⟨fun _ => Except.ok ⟨true, some [[]]⟩,
   fun _ _ => Except.ok (("model narration").toList)⟩

/-- FAQ collaborators with a successful retrieval and a failing model. -/
def faqChatFailOracle : FaqOracles :=
  ⟨fun _ => Except.ok ⟨true, some [[some (("A").toList)]]⟩,
   fun _ _ => Except.error (PyErr.libError [])⟩

-- ---------------------------------------------------------------------
-- Spec-side predicates (stated independently of the search functions)
-- ---------------------------------------------------------------------

/-- A case-insensitive occurrence of the opening tag starts at index `i`. -/
def openTagAt (t : Str) (i : Nat) : Prop := OPEN_TAG <+: (upper t).drop i

/-- A case-insensitive occurrence of the closing tag starts at index `j`. -/
def closeTagAt (t : Str) (j : Nat) : Prop := CLOSE_TAG <+: (upper t).drop j

/-- The text contains a matching tag pair: an opening tag followed (after
its five characters) by a closing tag. -/
def hasTagPair (t : Str) : Prop :=
  ∃ i j, openTagAt t i ∧ closeTagAt t j ∧ i + 5 ≤ j

-- ---------------------------------------------------------------------
-- Helper lemmas: the substring search machinery
-- ---------------------------------------------------------------------

theorem isPrefixL_iff (p : Str) : ∀ s : Str, isPrefixL p s = true ↔ p <+: s := by
  induction p with
  | nil => intro s; simp [isPrefixL]
  | cons a ps ih =>
    intro s
    cases s with
    | nil => simp [isPrefixL]
    | cons c cs => simp [isPrefixL, List.cons_prefix_cons, ih]

theorem findSub_some (pat : Str) :
    ∀ (s : Str) (i : Nat), findSub pat s = some i →
      isPrefixL pat (s.drop i) = true ∧
        ∀ k, k < i → isPrefixL pat (s.drop k) = false := by
  intro s
  induction s with
  | nil =>
    intro i h
    unfold findSub at h
    by_cases hp : isPrefixL pat [] = true
    · rw [if_pos hp] at h
      simp only [Option.some.injEq] at h
      subst h
      exact ⟨by simpa using hp, by omega⟩
    · rw [if_neg hp] at h; exact absurd h (by simp)
  | cons c rest ih =>
    intro i h
    unfold findSub at h
    by_cases hp : isPrefixL pat (c :: rest) = true
    · rw [if_pos hp] at h
      simp only [Option.some.injEq] at h
      subst h
      exact ⟨hp, by omega⟩
    · rw [if_neg hp] at h
      rcases Option.map_eq_some'.1 h with ⟨j, hj, rfl⟩
      rcases ih j hj with ⟨h1, h2⟩
      refine ⟨by simpa using h1, ?_⟩
      intro k hk
      cases k with
      | zero => simpa using hp
      | succ k' => simpa using h2 k' (by omega)

theorem findSub_none (pat : Str) :
    ∀ s : Str, findSub pat s = none →
      ∀ k, isPrefixL pat (s.drop k) = false := by
  intro s
  induction s with
  | nil =>
    intro h k
    unfold findSub at h
    by_cases hp : isPrefixL pat [] = true
    · rw [if_pos hp] at h; exact absurd h (by simp)
    · simpa using hp
  | cons c rest ih =>
    intro h k
    unfold findSub at h
    by_cases hp : isPrefixL pat (c :: rest) = true
    · rw [if_pos hp] at h; exact absurd h (by simp)
    · rw [if_neg hp] at h
      have hr : findSub pat rest = none := by
        cases hfr : findSub pat rest with
        | none => rfl
        | some j => rw [hfr] at h; exact absurd h (by simp)
      cases k with
      | zero => simpa using hp
      | succ k' => simpa using ih hr k'

theorem findSub_of_occurrence (pat s : Str) (k : Nat)
    (h : isPrefixL pat (s.drop k) = true) :
    ∃ i, findSub pat s = some i ∧ i ≤ k := by
  cases hf : findSub pat s with
  | none => exact absurd (findSub_none pat s hf k) (by simp [h])
  | some i =>
    refine ⟨i, rfl, ?_⟩
    by_contra hlt
    have := (findSub_some pat s i hf).2 k (by omega)
    simp [h] at this

theorem findSub_eq_first (pat s : Str) (i : Nat)
    (h : isPrefixL pat (s.drop i) = true)
    (hmin : ∀ k, k < i → isPrefixL pat (s.drop k) = false) :
    findSub pat s = some i := by
  rcases findSub_of_occurrence pat s i h with ⟨j, hj, hle⟩
  rcases Nat.lt_or_ge j i with hlt | hge
  · have := hmin j hlt
    have := (findSub_some pat s j hj).1
    simp_all
  · have : j = i := by omega
    subst this; exact hj

theorem containsSub_iff (pat s : Str) : containsSub pat s = true ↔ pat <:+: s := by
  constructor
  · intro h
    rcases Option.isSome_iff_exists.1 h with ⟨i, hi⟩
    have hp := (isPrefixL_iff pat _).1 (findSub_some pat s i hi).1
    rcases hp with ⟨t, ht⟩
    exact ⟨s.take i, t, by rw [List.append_assoc, ht, List.take_append_drop]⟩
  · rintro ⟨u, v, rfl⟩
    have hp : isPrefixL pat ((u ++ pat ++ v).drop u.length) = true := by
      rw [List.append_assoc, List.drop_left]
      exact (isPrefixL_iff pat _).2 ⟨v, rfl⟩
    rcases findSub_of_occurrence _ _ _ hp with ⟨i, hi, _⟩
    unfold containsSub
    rw [hi]
    rfl

-- ---------------------------------------------------------------------
-- The claims
-- ---------------------------------------------------------------------

/-- C1: the safety filter `_is_safe_sql` is a pure predicate that accepts a
statement if and only if its uppercased text contains none of the
denylisted keywords DROP, DELETE, UPDATE, INSERT, ALTER as a substring; in
particular every statement containing a denylisted keyword case-insensitively
anywhere (also inside string literals or identifiers) is rejected. -/
theorem c1_safe_sql_iff_no_denylisted_substring (sql : Str) :
    _is_safe_sql sql = true ↔
      ∀ kw ∈ UNSAFE_SQL_KEYWORDS, ¬ kw <:+: upper sql := by
  unfold _is_safe_sql
  simp only [Bool.not_eq_true', List.any_eq_false, containsSub_iff]

/-- C4: on an empty result set `narrate_results` returns exactly the fixed
sentinel "No products match your request." and makes no collaborator call
at all (the trace is empty): the model is not invoked on this path. -/
theorem c4_empty_results_short_circuit (o : Oracles) (question : Str) :
    narrate_results o question ([] : List Row) = (Except.ok noProductsMsg, []) := rfl

/-- C8 (evidence of the code bug): `run_sql` scopes the connection with
`with sqlite3.connect(db_path)`, whose exit commits or rolls back but never
closes; at the concrete statement "SELECT * FROM product" the connection
handle ends unclosed both when execution succeeds (committed, not closed)
and when it raises (rolled back, not closed). -/
theorem c8_run_sql_never_closes_connection :
    (run_sql selectOracle (("SELECT * FROM product").toList)).2.1
      = { opened := true, closed := false, committed := true, rolledBack := false } ∧
    (run_sql execFailOracle (("SELECT * FROM product").toList)).2.1
      = { opened := true, closed := false, committed := false, rolledBack := true } :=
  ⟨rfl, rfl⟩

theorem generate_sql_of_ok (o : Oracles) (question resp : Str)
    (hresp : o.genModel (genMessages question) = Except.ok resp) :
    generate_sql o question =
      match _extract_sql resp with
      | none => (Except.error (PyErr.valueError llmFailedMsg), [Event.genModelCall])
      | some sql =>
        if sql.isEmpty then (Except.error (PyErr.valueError llmFailedMsg), [Event.genModelCall])
        else if _is_safe_sql sql then (Except.ok sql, [Event.genModelCall])
        else (Except.error (PyErr.valueError unsafeMsg), [Event.genModelCall]) := by
  unfold generate_sql
  rw [hresp]

theorem option_cases {α : Type} (x : Option α) :
    x = none ∨ ∃ a, x = some a := by
  cases x
  · exact Or.inl rfl
  · exact Or.inr ⟨_, rfl⟩

/-- C2: for every question and every model response whose extracted
statement contains a denylisted keyword case-insensitively, `sql_chain`
returns the apology (the statement is rejected) and the relational store is
never invoked: the trace contains no executor call. -/
theorem c2_unsafe_sql_never_executed (o : Oracles) (question resp sql : Str)
    (hresp : o.genModel (genMessages question) = Except.ok resp)
    (hext : _extract_sql resp = some sql)
    (hkw : ∃ kw ∈ UNSAFE_SQL_KEYWORDS, kw <:+: upper sql) :
    (sql_chain o question).1 = apologyMsg ∧
      execCalls (sql_chain o question).2 = [] := by
  have hunsafe : _is_safe_sql sql = false := by
    rcases hkw with ⟨kw, hmem, hinf⟩
    unfold _is_safe_sql
    simp only [Bool.not_eq_false', List.any_eq_true]
    exact ⟨kw, hmem, (containsSub_iff _ _).2 hinf⟩
  have hgen : ∃ e, generate_sql o question = (Except.error e, [Event.genModelCall]) := by
    rw [generate_sql_of_ok o question resp hresp, hext]
    by_cases hemp : sql.isEmpty = true
    · exact ⟨PyErr.valueError llmFailedMsg, by simp [hemp]⟩
    · exact ⟨PyErr.valueError unsafeMsg, by simp [hemp, hunsafe]⟩
  obtain ⟨e, hgen⟩ := hgen
  have hchain : sql_chain o question = (apologyMsg, [Event.genModelCall]) := by
    unfold sql_chain sql_chain_try
    rw [hgen]
  rw [hchain]
  exact ⟨rfl, rfl⟩

/-- C2 witness: a model emitting "DROP TABLE product" inside the tags, with
live executor and narrator; the chain answers with the apology and the
executor trace is empty. -/
theorem c2_unsafe_sql_never_executed_witness :
    (sql_chain dropOracle (("q").toList)).1 = apologyMsg ∧
      execCalls (sql_chain dropOracle (("q").toList)).2 = [] :=
  c2_unsafe_sql_never_executed dropOracle (("q").toList)
    (("<SQL>DROP TABLE product</SQL>").toList)
    (("DROP TABLE product").toList)
    rfl (by decide) (by decide)

/-- C3: whenever any stage of the pipeline body fails with any exception,
`sql_chain` returns the single fixed apology string; since `sql_chain`
totalises the computation into a plain string, no exception propagates to
the caller. -/
theorem c3_any_failure_yields_apology (o : Oracles) (question : Str) (e : PyErr)
    (h : (sql_chain_try o question).1 = Except.error e) :
    (sql_chain o question).1 = apologyMsg := by
  unfold sql_chain
  rcases hst : sql_chain_try o question with ⟨r, evs⟩
  rw [hst] at h
  have hr : r = Except.error e := h
  subst hr
  rfl

/-- C3 witness: a pipeline whose executor raises; the chain returns the
apology. -/
theorem c3_any_failure_yields_apology_witness :
    (sql_chain execFailOracle (("q").toList)).1 = apologyMsg :=
  c3_any_failure_yields_apology execFailOracle (("q").toList)
    (PyErr.libError []) (by decide)

/-- C6 counterexample: on the response "<SQL></SQL>" extraction finds a tag
pair and yields a match (the empty statement), yet `generate_sql` raises
the generation failure, contradicting "fails if and only if no match is
found". -/
theorem c6_counterexample_empty_statement :
    _extract_sql (("<SQL></SQL>").toList) = some [] ∧
    (generate_sql emptyTagsOracle (("q").toList)).1
      = Except.error (PyErr.valueError llmFailedMsg) :=
  ⟨by decide, by decide⟩

/-- C6 (amended): `generate_sql` fails with the generation error exactly
when extraction yields no match or yields the empty statement (the source
tests Python falsiness, `if not sql`); otherwise, when the extracted
statement is nonempty and safe, it proceeds with that statement. -/
theorem c6_generation_error_iff (o : Oracles) (question resp : Str)
    (hresp : o.genModel (genMessages question) = Except.ok resp) :
    ((generate_sql o question).1 = Except.error (PyErr.valueError llmFailedMsg) ↔
      (_extract_sql resp = none ∨ _extract_sql resp = some [])) ∧
    (∀ sql, _extract_sql resp = some sql → sql ≠ [] → _is_safe_sql sql = true →
      (generate_sql o question).1 = Except.ok sql) := by
  constructor
  · rcases option_cases (_extract_sql resp) with hext | ⟨sql, hext⟩
    · rw [generate_sql_of_ok o question resp hresp, hext]
      simp
    · rw [generate_sql_of_ok o question resp hresp, hext]
      by_cases hemp : sql.isEmpty = true
      · obtain rfl : sql = [] := List.isEmpty_iff.1 hemp
        simp
      · have hne : sql ≠ [] := by simpa [List.isEmpty_iff] using hemp
        by_cases hsafe : _is_safe_sql sql = true
        · simp [hemp, hsafe, hne]
        · have hmsg : unsafeMsg ≠ llmFailedMsg := by decide
          simp [hemp, hsafe, hne, hmsg]
  · intro sql hext hne hsafe
    rw [generate_sql_of_ok o question resp hresp, hext]
    simp [List.isEmpty_iff, hne, hsafe]

/-- C6 witness: a model response with a nonempty safe statement; the
equivalence and the success case hold at it. -/
theorem c6_generation_error_iff_witness :
    ((generate_sql selectOracle (("q").toList)).1
        = Except.error (PyErr.valueError llmFailedMsg) ↔
      (_extract_sql (("<SQL> SELECT 1 </SQL>").toList) = none ∨
        _extract_sql (("<SQL> SELECT 1 </SQL>").toList) = some [])) ∧
    (∀ sql, _extract_sql (("<SQL> SELECT 1 </SQL>").toList) = some sql →
      sql ≠ [] → _is_safe_sql sql = true →
      (generate_sql selectOracle (("q").toList)).1 = Except.ok sql) :=
  c6_generation_error_iff selectOracle (("q").toList)
    (("<SQL> SELECT 1 </SQL>").toList) rfl

/-- C5: `_extract_sql` is total (a plain function) and deterministic; it
returns `none` exactly when the text has no matching tag pair
(case-insensitive tags), and on the first matching pair — the first opening
tag and the first closing tag after it — it returns the whitespace-stripped
content between them; the content may span newlines, since it is an
arbitrary slice of the character list. -/
theorem c5_extract_sql_characterization (t : Str) :
    (_extract_sql t = none ↔ ¬ hasTagPair t) ∧
    (∀ i j, openTagAt t i → (∀ i', i' < i → ¬ openTagAt t i') →
      closeTagAt t j → i + 5 ≤ j →
      (∀ j', j' < j → i + 5 ≤ j' → ¬ closeTagAt t j') →
      _extract_sql t = some (strip ((t.drop (i + 5)).take (j - (i + 5))))) := by
  constructor
  · constructor
    · intro hnone hpair
      rcases hpair with ⟨i0, j0, ho, hc, hij⟩
      have ho' : isPrefixL OPEN_TAG ((upper t).drop i0) = true :=
        (isPrefixL_iff _ _).2 ho
      rcases findSub_of_occurrence _ _ _ ho' with ⟨i, hi, hle⟩
      simp only [_extract_sql] at hnone
      rw [hi] at hnone
      dsimp only at hnone
      rcases option_cases (findSub CLOSE_TAG ((upper t).drop (i + 5))) with hk | ⟨k, hk⟩
      · have hall := findSub_none _ _ hk (j0 - (i + 5))
        rw [List.drop_drop] at hall
        have heq : i + 5 + (j0 - (i + 5)) = j0 := by omega
        rw [heq] at hall
        have hc' : isPrefixL CLOSE_TAG ((upper t).drop j0) = true :=
          (isPrefixL_iff _ _).2 hc
        simp [hc'] at hall
      · rw [hk] at hnone
        exact absurd hnone (by simp)
    · intro hnp
      simp only [_extract_sql]
      rcases option_cases (findSub OPEN_TAG (upper t)) with hfo | ⟨i, hfo⟩
      · rw [hfo]
      · rw [hfo]
        dsimp only
        rcases option_cases (findSub CLOSE_TAG ((upper t).drop (i + 5))) with hfc | ⟨k, hfc⟩
        · rw [hfc]
        · exfalso
          apply hnp
          have hoi : openTagAt t i := (isPrefixL_iff _ _).1 (findSub_some _ _ _ hfo).1
          have hck := (findSub_some _ _ _ hfc).1
          rw [List.drop_drop] at hck
          exact ⟨i, i + 5 + k, hoi, (isPrefixL_iff _ _).1 hck, by omega⟩
  · intro i j hoi homin hcj hij hcmin
    have h1 : findSub OPEN_TAG (upper t) = some i := by
      apply findSub_eq_first
      · exact (isPrefixL_iff _ _).2 hoi
      · intro k hk
        have hnk : ¬ isPrefixL OPEN_TAG ((upper t).drop k) = true :=
          fun hb => homin k hk ((isPrefixL_iff _ _).1 hb)
        simpa using hnk
    have h2 : findSub CLOSE_TAG ((upper t).drop (i + 5)) = some (j - (i + 5)) := by
      apply findSub_eq_first
      · rw [List.drop_drop]
        have heq : i + 5 + (j - (i + 5)) = j := by omega
        rw [heq]
        exact (isPrefixL_iff _ _).2 hcj
      · intro k hk
        rw [List.drop_drop]
        have hnk : ¬ isPrefixL CLOSE_TAG ((upper t).drop (i + 5 + k)) = true :=
          fun hb => hcmin (i + 5 + k) (by omega) (by omega) ((isPrefixL_iff _ _).1 hb)
        simpa using hnk
    simp only [_extract_sql]
    rw [h1]
    dsimp only
    rw [h2]

theorem generate_answer_trace (o : FaqOracles) (q c : Str) :
    (generate_answer o q c).2 = [FEvent.modelCall] := by
  unfold generate_answer
  cases o.chat q c <;> rfl

theorem faq_chain_trace (o : FaqOracles) (q : Str) :
    (faq_chain o q).2 = [FEvent.retrieveCall] ∨
    (faq_chain o q).2 = [FEvent.retrieveCall, FEvent.modelCall] := by
  cases hr : o.retrieve q with
  | error e =>
    left
    unfold faq_chain
    rw [hr]
  | ok res =>
    rcases res with ⟨tr, md⟩
    cases tr with
    | false => left; unfold faq_chain; rw [hr]
    | true =>
      cases md with
      | none => left; unfold faq_chain; rw [hr]
      | some l =>
        cases l with
        | nil => left; unfold faq_chain; rw [hr]
        | cons m0 rest =>
          by_cases hm : m0.isEmpty = true
          · left
            unfold faq_chain
            rw [hr]
            dsimp only
            rw [if_pos hm]
          · right
            unfold faq_chain
            rw [hr]
            dsimp only
            rw [if_neg hm]
            dsimp only
            rcases hga : generate_answer o q
                (joinSpace (m0.map fun meta => meta.getD [])) with ⟨ans, evs⟩
            have hevs : evs = [FEvent.modelCall] := by
              have h2 := generate_answer_trace o q
                (joinSpace (m0.map fun meta => meta.getD []))
              rw [hga] at h2
              exact h2
            rw [hga, hevs]

/-- C7 counterexample: retrieval yields one record whose stored answer is
empty, so the concatenated context is empty; yet `faq_chain` does not
short-circuit — it calls the model and returns the model's narration, not
the fallback message. -/
theorem c7_counterexample_empty_context :
    joinSpace ([some ([] : Str)].map fun meta => meta.getD []) = [] ∧
    faq_chain faqEmptyAnswerOracle (("q").toList)
      = ((("model narration").toList), [FEvent.retrieveCall, FEvent.modelCall]) ∧
    (("model narration").toList) ≠ noSpecificInfoMsg :=
  ⟨by decide, by decide, by decide⟩

/-- C7 (amended): for every query whose retrieval succeeds but carries no
records — a falsy result, a missing or empty `metadatas`, or an empty first
metadata list — `faq_chain` returns the fixed fallback message and never
calls the language model (the trace is exactly the retrieval call); an
empty concatenated context built from a nonempty metadata list does not
short-circuit. -/
theorem c7_no_records_fallback (o : FaqOracles) (q : Str) (res : QRes)
    (hret : o.retrieve q = Except.ok res)
    (hno : res.truthy = false ∨ res.metadatas = none ∨ res.metadatas = some [] ∨
           ∃ rest, res.metadatas = some ([] :: rest)) :
    faq_chain o q = (noSpecificInfoMsg, [FEvent.retrieveCall]) := by
  rcases res with ⟨tr, md⟩
  rcases hno with h | h | h | ⟨rest, h⟩
  · have h' : tr = false := h
    subst h'
    unfold faq_chain
    rw [hret]
  · have h' : md = none := h
    subst h'
    cases tr <;> (unfold faq_chain; rw [hret])
  · have h' : md = some [] := h
    subst h'
    cases tr <;> (unfold faq_chain; rw [hret])
  · have h' : md = some ([] :: rest) := h
    subst h'
    cases tr
    · unfold faq_chain; rw [hret]
    · unfold faq_chain; rw [hret]; rfl

/-- C7 witness: a retrieval whose first metadata list is empty; the chain
answers the fallback with a trace of one retrieval call. -/
theorem c7_no_records_fallback_witness :
    faq_chain faqNoRecordsOracle (("q").toList)
      = (noSpecificInfoMsg, [FEvent.retrieveCall]) :=
  c7_no_records_fallback faqNoRecordsOracle (("q").toList) ⟨true, some [[]]⟩
    rfl (Or.inr (Or.inr (Or.inr ⟨[], rfl⟩)))

/-- C9: FAQ ingestion is idempotent — running it twice leaves the store as
after one run, and when the target collection already exists it returns the
store unchanged; and ingestion is never invoked on the per-query path: the
trace of `faq_chain` never contains an ingestion call. -/
theorem c9_ingest_idempotent_and_off_query_path (s : VStore)
    (csv : List (Str × Str)) (o : FaqOracles) (q : Str) :
    ingest_faq_data (ingest_faq_data s csv) csv = ingest_faq_data s csv ∧
    (collection_name_faq ∈ s.collections.map Collection.name →
      ingest_faq_data s csv = s) ∧
    FEvent.ingestCall ∉ (faq_chain o q).2 := by
  have hskip : ∀ s' : VStore,
      collection_name_faq ∈ s'.collections.map Collection.name →
      ingest_faq_data s' csv = s' := by
    intro s' hmem
    unfold ingest_faq_data
    rw [if_pos hmem]
  refine ⟨?_, hskip s, ?_⟩
  · by_cases hmem : collection_name_faq ∈ s.collections.map Collection.name
    · rw [hskip s hmem, hskip s hmem]
    · have hnew : ingest_faq_data s csv =
        { s with collections := s.collections ++
            [{ name := collection_name_faq
               documents := csv.map Prod.fst
               metadatas := csv.map Prod.snd
               ids := (List.range csv.length).map faqId }] } := by
        unfold ingest_faq_data
        rw [if_neg hmem]
      apply hskip
      rw [hnew]
      simp
  · rcases faq_chain_trace o q with h | h <;> rw [h] <;> decide

/-- C10: in the FAQ pipeline a model failure is caught inside
`generate_answer`, not at the outer boundary: when retrieval succeeds with
nonempty metadata but the model call raises, `faq_chain` returns the fixed
inner message, which differs from the outer boundary's retrieval-failure
message. -/
theorem c10_model_error_caught_inside (o : FaqOracles) (q : Str) (res : QRes)
    (m0 : List (Option Str)) (rest : List (List (Option Str))) (e : PyErr)
    (hret : o.retrieve q = Except.ok res)
    (htr : res.truthy = true)
    (hmd : res.metadatas = some (m0 :: rest))
    (hm0 : m0 ≠ [])
    (hchat : o.chat q (joinSpace (m0.map fun meta => meta.getD []))
      = Except.error e) :
    (faq_chain o q).1 = innerErrorMsg ∧ innerErrorMsg ≠ troubleMsg := by
  refine ⟨?_, by decide⟩
  rcases res with ⟨tr, md⟩
  have htr' : tr = true := htr
  have hmd' : md = some (m0 :: rest) := hmd
  subst htr' hmd'
  have hm : ¬ m0.isEmpty = true := by simpa [List.isEmpty_iff] using hm0
  unfold faq_chain
  rw [hret]
  dsimp only
  rw [if_neg hm]
  dsimp only
  unfold generate_answer
  rw [hchat]

/-- C10 witness: a retrieval with one record and a failing model; the chain
answers the fixed inner message. -/
theorem c10_model_error_caught_inside_witness :
    (faq_chain faqChatFailOracle (("q").toList)).1 = innerErrorMsg ∧
      innerErrorMsg ≠ troubleMsg :=
  c10_model_error_caught_inside faqChatFailOracle (("q").toList)
    ⟨true, some [[some (("A").toList)]]⟩ [some (("A").toList)] []
    (PyErr.libError []) rfl rfl rfl (by decide) rfl

end ShopAssist
